import Mathlib

/-!
# Shallow embedding of the mini-shell (src/shell.c, src/cpuloadd.c)

This file embeds the behaviour of the mini-shell's pure logic in Lean:
the telemetry listener (`mq_listener`), the line tokenizer (`parse_line`),
background detection (`is_background`), the built-in dispatcher, the main
read-eval loop, and the fork/exec paths of `run_process` and `run_pipe`
rendered as explicit action traces.  Side-effecting system calls are made
explicit: results of `mq_receive` and `chdir` are passed in as parameters,
and the child/parent code paths become lists of the actions they perform.
-/

set_option autoImplicit false

namespace MiniShell

/-! ## Telemetry listener (`mq_listener` in shell.c)

A received message is modelled as the C string placed in `buf` by
`mq_receive` (the producer sends NUL-terminated text of at most 64 bytes,
the queue's message size, so the `buf[sizeof(buf)-1] = '\0'` guard never
truncates a well-formed message).  A failed receive is `none`. -/

/-- `isspace` in the C locale: space and the five control characters 9–13. -/
def isSpaceC (c : Char) : Bool :=
  c.toNat = 32 || (9 ≤ c.toNat && c.toNat ≤ 13)

/-- ASCII decimal digit test, as `atoi` performs it. -/
def isDigitC (c : Char) : Bool :=
  48 ≤ c.toNat && c.toNat ≤ 57

/-- Numeric value of an ASCII digit. -/
def digitVal (c : Char) : Nat :=
  c.toNat - 48

/-- Consume leading decimal digits, accumulating their value; stops at the
first non-digit, exactly as `atoi` does.  (C `atoi` has undefined behaviour
on overflow; the messages here are at most 64 bytes of a formatted load
percentage, far below any overflow.) -/
def atoiDigits : List Char → Nat → Nat
  | [], acc => acc
  | c :: cs, acc => if isDigitC c then atoiDigits cs (acc * 10 + digitVal c) else acc

/-- C `atoi`: skip leading whitespace, accept one optional sign, then read
decimal digits; text with no leading digits yields 0. -/
def atoiChars (cs : List Char) : Int :=
  match cs.dropWhile isSpaceC with
  | '-' :: rest => -(atoiDigits rest 0 : Int)
  | '+' :: rest => (atoiDigits rest 0 : Int)
  | rest => (atoiDigits rest 0 : Int)

/-- `atoi` on a Lean string. -/
def atoi (s : String) : Int :=
  atoiChars s.toList

/-- The clamp performed by `mq_listener` after `atoi`:
`if (val < 0) val = 0; if (val > 100) val = 100;`. -/
def clampLoad (v : Int) : Int :=
  if v < 0 then 0 else if v > 100 then 100 else v

/-- Initial value of the global `current_cpu_load`: `-1` means "no data yet". -/
def current_cpu_load_init : Int := -1

/-- One iteration of the `mq_listener` loop, as a transformation of the
cached load value.  `none` models a failed `mq_receive` (`n < 0`): the
cache is not touched.  `some s` models a successful receive of message
text `s`: the parsed, clamped value overwrites the cache. -/
def mq_listener_step (cur : Int) (msg : Option String) : Int :=
  match msg with
  | none => cur
  | some s => clampLoad (atoi s)

/-- The cached load after the listener has processed a sequence of
receive results, starting from the initial `-1`. -/
def mq_listener_run (msgs : List (Option String)) : Int :=
  msgs.foldl mq_listener_step current_cpu_load_init

/-- What the prompt shows for the CPU load. -/
inductive LoadDisplay where
  | percent (n : Int)
  | na
  deriving DecidableEq, Repr

/-- The prompt renderer's choice in `main`:
`if (load_snapshot >= 0) printf("[CPU %d%%]") else printf("[CPU n/a]")`. -/
def render_load (snapshot : Int) : LoadDisplay :=
  if snapshot ≥ 0 then LoadDisplay.percent snapshot else LoadDisplay.na

/-- The invariant maintained for `current_cpu_load`: the initial sentinel
`-1`, or a clamped percentage. -/
def LoadInv (v : Int) : Prop :=
  v = -1 ∨ (0 ≤ v ∧ v ≤ 100)

/-! ## Tokenization (`parse_line`, `is_background`) -/

/-- The delimiters of `strtok(line, " \t")`. -/
def isDelim (c : Char) : Bool :=
  c = ' ' || c = '\t'

/-- Worker for `tokenize`: `acc` holds the (reversed) characters of the
token being built. -/
def tokenizeAux : List Char → List Char → List String
  | [], acc => if acc.isEmpty then [] else [String.mk acc.reverse]
  | c :: cs, acc =>
    if isDelim c then
      if acc.isEmpty then tokenizeAux cs []
      else String.mk acc.reverse :: tokenizeAux cs []
    else tokenizeAux cs (c :: acc)

/-- The token stream produced by repeated `strtok(…, " \t")`: maximal
nonempty runs of non-delimiter characters. -/
def tokenize (s : String) : List String :=
  tokenizeAux s.toList []

/-- `#define MAX_LINE 256` (capacity of the input buffer). -/
def MAX_LINE : Nat := 256

/-- `#define MAX_ARGS 32` (capacity of the `args` array). -/
def MAX_ARGS : Nat := 32

/-- The `parse_line` loop:
`while (token != NULL && i < MAX_ARGS - 1) { args[i++] = token; … }`.
Given the remaining token stream and the current index `i`, returns the
tokens stored from index `i` on, and the final value of `i` (the value
returned after `args[i] = NULL`). -/
def parse_line_go : List String → Nat → List String × Nat
  | [], i => ([], i)
  | t :: ts, i =>
    if i < MAX_ARGS - 1 then
      let r := parse_line_go ts (i + 1)
      (t :: r.1, r.2)
    else ([], i)

/-- `parse_line(line, args)`: the list of tokens stored into `args` and the
returned count. -/
def parse_line (line : String) : List String × Nat :=
  parse_line_go (tokenize line) 0

/-- The contents of the `args` array after `parse_line`: the stored tokens
followed by the terminating `NULL`. -/
def parse_line_args (line : String) : List (Option String) :=
  ((parse_line line).1.map some) ++ [none]

/-- `is_background(args, argc)`: if the last stored token is `"&"`, it is
replaced by `NULL` (truncating the argument vector) and 1 is returned.
Result: (background flag, argument vector actually passed on). -/
def is_background (args : List String) : Bool × List String :=
  if args.getLast? = some "&" then (true, args.dropLast) else (false, args)

/-! ## Built-ins (`run_builtin`) -/

/-- Outcome of the `cd` branch of `run_builtin`: the working directory
afterwards, and whether an error message was printed. -/
structure CdResult where
  cwd : String
  reportedError : Bool
  deriving DecidableEq, Repr

/-- The `cd` branch of `run_builtin`.  `arg` is `args[1]` (`none` when the
path is missing).  `chdirResult p` is the outcome of the `chdir(p)` system
call: `some d` when it succeeds and the working directory becomes `d`,
`none` when it fails (then `perror("cd")` reports). -/
def run_cd (cwd : String) (arg : Option String) (chdirResult : String → Option String) :
    CdResult :=
  match arg with
  | none => ⟨cwd, true⟩
  | some p =>
    match chdirResult p with
    | some d => ⟨d, false⟩
    | none => ⟨cwd, true⟩

/-! ## Per-line dispatch in `main` -/

/-- `strchr(line, '|')`: splits the character list at the first `'|'`,
returning the parts before and after it, or `none` if there is no pipe
character. -/
def splitAtPipe : List Char → Option (List Char × List Char)
  | [] => none
  | c :: rest =>
    if c = '|' then some ([], rest)
    else
      match splitAtPipe rest with
      | some lr => some (c :: lr.1, lr.2)
      | none => none

/-- How `main` dispatches one input line. -/
inductive Dispatch where
  | blank
  | pipe (left right : List String)
  | pipeErr
  | builtinPwd
  | builtinCd
  | builtinExitPrompt
  | external (args : List String) (background : Bool)
  deriving DecidableEq, Repr

/-- The pipe branch of `main`: tokenize both halves (leading spaces of the
right half stripped first); dispatch to `run_pipe` only when both argument
vectors are nonempty, otherwise report bad pipe syntax. -/
def dispatch_pipe (l r : List Char) : Dispatch :=
  let leftArgs := (parse_line (String.mk l)).1
  let rightArgs := (parse_line (String.mk (r.dropWhile (fun c => c = ' ')))).1
  if leftArgs = [] ∨ rightArgs = [] then Dispatch.pipeErr
  else Dispatch.pipe leftArgs rightArgs

/-- The non-pipe branch of `main`: empty token list continues the loop;
`run_builtin` is tried on `args[0]` first; only then is the trailing `&`
detected and the external command launched. -/
def dispatch_nonpipe (args : List String) : Dispatch :=
  match args with
  | [] => Dispatch.blank
  | a0 :: rest =>
    if a0 = "pwd" then Dispatch.builtinPwd
    else if a0 = "cd" then Dispatch.builtinCd
    else if a0 = "exit" then Dispatch.builtinExitPrompt
    else
      let bg := is_background (a0 :: rest)
      Dispatch.external bg.2 bg.1

/-- One iteration of `main`'s loop on a (newline-trimmed) input line:
skip empty lines, check for `'|'` before anything else, otherwise parse
and dispatch. -/
def dispatch_line (line : String) : Dispatch :=
  if line.toList = [] then Dispatch.blank
  else
    match splitAtPipe line.toList with
    | some lr => dispatch_pipe lr.1 lr.2
    | none => dispatch_nonpipe (parse_line line).1

/-! ## The read-eval loop (`main`), driven by the list of lines still
available on standard input -/

/-- Observable events of the loop. -/
inductive Event where
  | ranPipe (left right : List String)
  | pipeSyntaxError
  | ranBuiltin (cmd : String)
  | confirmPrompt
  | ranExternal (args : List String) (background : Bool)
  deriving DecidableEq, Repr

/-- How the shell process ends. -/
inductive Termination where
  | confirmedExit
  | eofBreak
  deriving DecidableEq, Repr

/-- The shell's own exit status on each termination path: `exit(0)` after a
confirmed `exit`, `return 0` from `main` after the EOF break. -/
def shell_exit_code : Termination → Nat
  | Termination.confirmedExit => 0
  | Termination.eofBreak => 0

/-- Whether the next `fgets` feeds `main`'s prompt read or the pending
`exit` confirmation read inside `run_builtin`. -/
inductive LoopMode where
  | reading
  | confirming
  deriving DecidableEq, Repr

/-- Events emitted for one dispatched line. -/
def eventsOf : Dispatch → List Event
  | Dispatch.blank => []
  | Dispatch.pipe l r => [Event.ranPipe l r]
  | Dispatch.pipeErr => [Event.pipeSyntaxError]
  | Dispatch.builtinPwd => [Event.ranBuiltin "pwd"]
  | Dispatch.builtinCd => [Event.ranBuiltin "cd"]
  | Dispatch.builtinExitPrompt => [Event.confirmPrompt]
  | Dispatch.external args bg => [Event.ranExternal args bg]

/-- Mode after dispatching a line: only the `exit` built-in leaves a
confirmation read pending. -/
def nextMode : Dispatch → LoopMode
  | Dispatch.builtinExitPrompt => LoopMode.confirming
  | _ => LoopMode.reading

/-- `main`'s loop over the remaining input lines.  Exhausting the input is
`fgets` returning `NULL`: in `reading` mode the loop breaks at once
(`eofBreak`); in `confirming` mode the failed confirmation read makes
`run_builtin` return without exiting, and the very next prompt read then
breaks.  A confirmation line is affirmative exactly when its first
character is `'y'` (`ans[0] == 'y'`). -/
def shell_run : LoopMode → List String → List Event × Termination
  | _, [] => ([], Termination.eofBreak)
  | LoopMode.confirming, ans :: rest =>
    if ans.toList.headD 'x' = 'y' then ([], Termination.confirmedExit)
    else shell_run LoopMode.reading rest
  | LoopMode.reading, line :: rest =>
    let d := dispatch_line line
    let r := shell_run (nextMode d) rest
    (eventsOf d ++ r.1, r.2)

/-! ## Fork/exec paths (`run_process`, `run_pipe`) as action traces

Each straight-line code path of shell.c is rendered as the list of
process-level actions it performs, in program order.  The vocabulary
includes the job-control call `setpgid` so that statements about process
groups can be expressed; shell.c itself never performs it, which is
visible in the traces below.  `execFails` selects the `execvp` outcome:
on success the image is replaced and the trace ends at the `execvp`; on
failure the code after it runs. -/

/-- Process-level actions. -/
inductive Action where
  | dup2 (srcFd dstFd : Nat)
  | closeFd (fd : Nat)
  | execvp (prog : String)
  | perror (msg : String)
  | exitStatus (code : Nat)
  | setpgid (pid pgid : Nat)
  | waitpidFor (pid : Nat)
  | message (text : String)
  deriving DecidableEq, Repr

/-- Is the action a `waitpid`? -/
def isWait : Action → Bool
  | Action.waitpidFor _ => true
  | _ => false

/-- Is the action a `setpgid` (process-group creation or join)? -/
def isSetpgid : Action → Bool
  | Action.setpgid _ _ => true
  | _ => false

/-- The `exit` statuses occurring in a trace, in order. -/
def exitCodesIn (tr : List Action) : List Nat :=
  tr.filterMap fun a =>
    match a with
    | Action.exitStatus c => some c
    | _ => none

/-- The process group of a process after a trace, given the group it
inherited from its parent at `fork`: only a `setpgid` changes it. -/
def pgidAfter (inherited : Nat) : List Action → Nat
  | [] => inherited
  | Action.setpgid _ g :: rest => pgidAfter g rest
  | _ :: rest => pgidAfter inherited rest

/-- Pipe descriptors a process still holds after a trace, starting from
those it held initially. -/
def openFdsAfter (held : List Nat) (tr : List Action) : List Nat :=
  tr.foldl
    (fun s a =>
      match a with
      | Action.closeFd fd => s.erase fd
      | _ => s)
    held

/-- Child path of `run_process` (`pid == 0`): `execvp(args[0], args)`,
and on failure `perror` followed by `exit(1)`. -/
def run_process_child (args : List String) (execFails : Bool) : List Action :=
  [Action.execvp (args.headD "")] ++
    (if execFails then [Action.perror "execvp", Action.exitStatus 1] else [])

/-- Parent path of `run_process`: print the start message, then `waitpid`
for the child only in the foreground case. -/
def run_process_parent (pid : Nat) (background : Bool) : List Action :=
  [Action.message "[PID] gestartet"] ++
    (if background then [] else [Action.waitpidFor pid])

/-- First child of `run_pipe` (producer): `dup2(fd[1], STDOUT)`, close both
pipe ends, `execvp(left[0], left)`; on failure `perror` and `exit(1)`. -/
def run_pipe_child1 (fd0 fd1 : Nat) (left : List String) (execFails : Bool) : List Action :=
  [Action.dup2 fd1 1, Action.closeFd fd0, Action.closeFd fd1,
   Action.execvp (left.headD "")] ++
    (if execFails then [Action.perror "execvp left", Action.exitStatus 1] else [])

/-- Second child of `run_pipe` (consumer): `dup2(fd[0], STDIN)`, close both
pipe ends, `execvp(right[0], right)`; on failure `perror` and `exit(1)`. -/
def run_pipe_child2 (fd0 fd1 : Nat) (right : List String) (execFails : Bool) : List Action :=
  [Action.dup2 fd0 0, Action.closeFd fd0, Action.closeFd fd1,
   Action.execvp (right.headD "")] ++
    (if execFails then [Action.perror "execvp right", Action.exitStatus 1] else [])

/-- Parent path of `run_pipe` after both forks: close both pipe ends, print
the start message, then wait for both children unconditionally. -/
def run_pipe_parent (fd0 fd1 pid1 pid2 : Nat) : List Action :=
  [Action.closeFd fd0, Action.closeFd fd1, Action.message "[Pipe] gestartet",
   Action.waitpidFor pid1, Action.waitpidFor pid2]

/-! ## Helper lemmas -/

/-- The listener's two-sided clamp is the usual clamp to `[0, 100]`. -/
theorem clampLoad_eq_max_min (v : Int) : clampLoad v = max 0 (min 100 v) := by
  unfold clampLoad
  split_ifs <;> omega

/-- The clamped value is always within `[0, 100]`. -/
theorem clampLoad_bounds (v : Int) : 0 ≤ clampLoad v ∧ clampLoad v ≤ 100 := by
  unfold clampLoad
  split_ifs <;> omega

/-- One listener iteration preserves the cache invariant. -/
theorem LoadInv_step (cur : Int) (m : Option String) (h : LoadInv cur) :
    LoadInv (mq_listener_step cur m) := by
  cases m with
  | none => exact h
  | some s => exact Or.inr (clampLoad_bounds (atoi s))

/-- Any run of listener iterations preserves the cache invariant. -/
theorem LoadInv_foldl (msgs : List (Option String)) (start : Int) (h : LoadInv start) :
    LoadInv (msgs.foldl mq_listener_step start) := by
  induction msgs generalizing start with
  | nil => exact h
  | cons m ms ih => exact ih _ (LoadInv_step start m h)

/-- Closed form of the `parse_line` storing loop: starting at index `i`,
it stores the first `MAX_ARGS - 1 - i` remaining tokens and returns `i`
plus the number stored. -/
theorem parse_line_go_eq (toks : List String) (i : Nat) (h : i ≤ MAX_ARGS - 1) :
    parse_line_go toks i =
      (toks.take (MAX_ARGS - 1 - i), i + min toks.length (MAX_ARGS - 1 - i)) := by
  have hM : MAX_ARGS = 32 := rfl
  induction toks generalizing i with
  | nil => simp [parse_line_go]
  | cons t ts ih =>
    simp only [parse_line_go]
    by_cases hi : i < MAX_ARGS - 1
    · rw [if_pos hi, ih (i + 1) (by omega)]
      have h2 : MAX_ARGS - 1 - i = (MAX_ARGS - 1 - (i + 1)) + 1 := by omega
      rw [h2, List.take_succ_cons]
      simp only [Prod.mk.injEq, List.length_cons, true_and]
      omega
    · rw [if_neg hi]
      have h0 : MAX_ARGS - 1 - i = 0 := by omega
      rw [h0]
      simp

/-! ## Claim theorems -/

/-- Claim C6, counterexample: with 57 cached, receiving the unparseable
text "abc" does not leave the cache unchanged — `atoi` yields 0, which is
stored, overwriting the 57. -/
theorem recv_abc_overwrites_cex :
    mq_listener_step 57 (some "abc") = 0 ∧
    (mq_listener_step 57 (some "abc") == 57) = false := by decide

/-- Claim C6 as amended: a successful receive of the unparseable text
"abc" stores 0 (the clamped result of `atoi("abc")`), whatever was cached
before; only a failed receive leaves the cached value unchanged. -/
theorem recv_abc_stores_zero (prev : Int) :
    mq_listener_step prev (some "abc") = 0 ∧ mq_listener_step prev none = prev :=
  ⟨rfl, rfl⟩

/-- Claim C7: on every successful receive the stored value is the message
text parsed by `atoi` and clamped to `[0, 100]` (so "57.3" stores 57 and
the unparseable "abc" stores 0), and a failed receive leaves the cached
value unchanged. -/
theorem mq_listener_stores_clamped (prev : Int) (s : String) :
    mq_listener_step prev none = prev ∧
    mq_listener_step prev (some s) = max 0 (min 100 (atoi s)) ∧
    mq_listener_step prev (some "57.3") = 57 ∧
    mq_listener_step prev (some "abc") = 0 := by
  refine ⟨rfl, ?_, rfl, rfl⟩
  exact clampLoad_eq_max_min (atoi s)

/-- Claim C8: the `cd <path>` built-in prints an error exactly when the
`chdir` call fails, and on success the working directory becomes the new
directory with no error printed. -/
theorem cd_reports_iff_fails (cwd p : String) (res : String → Option String) :
    (run_cd cwd (some p) res).reportedError = (res p).isNone ∧
    (run_cd cwd (some p) res).cwd = (res p).getD cwd := by
  unfold run_cd
  cases h : res p <;> simp [h]

/-- Claim C9: starting from the `-1` sentinel, the cached load is at every
point either `-1` or an integer in `[0, 100]`, and the prompt renderer
shows a numeric percentage exactly for snapshots `≥ 0` and "n/a"
otherwise. -/
theorem load_invariant_and_render (msgs : List (Option String)) (v : Int) :
    LoadInv (mq_listener_run msgs) ∧
    (render_load v = LoadDisplay.percent v ↔ 0 ≤ v) ∧
    (render_load v = LoadDisplay.na ↔ v < 0) := by
  refine ⟨LoadInv_foldl msgs current_cpu_load_init (Or.inl rfl), ?_, ?_⟩ <;>
    unfold render_load <;> split_ifs with h <;> simp <;> omega

/-- Claim C10: `parse_line` stores at most `MAX_ARGS - 1 = 31` tokens,
they are exactly the first 31 tokens of the line (later ones are
discarded), the returned count is the number stored, and the terminating
`NULL` is written at index `count`, inside the `MAX_ARGS`-element array. -/
theorem parse_line_bounds (line : String) :
    (parse_line line).2 ≤ MAX_ARGS - 1 ∧
    (parse_line line).1 = (tokenize line).take (MAX_ARGS - 1) ∧
    (parse_line line).2 = (parse_line line).1.length ∧
    (parse_line_args line).length = (parse_line line).2 + 1 ∧
    (parse_line_args line).length ≤ MAX_ARGS ∧
    (parse_line_args line)[(parse_line line).2]? = some none := by
  have hM : MAX_ARGS = 32 := rfl
  have h := parse_line_go_eq (tokenize line) 0 (by omega)
  have hp : parse_line line =
      ((tokenize line).take (MAX_ARGS - 1), min (tokenize line).length (MAX_ARGS - 1)) := by
    rw [parse_line, h]
    simp
  have hlen : ((tokenize line).take (MAX_ARGS - 1)).length =
      min (tokenize line).length (MAX_ARGS - 1) := by
    rw [List.length_take]
    omega
  refine ⟨?_, ?_, ?_, ?_, ?_, ?_⟩
  · rw [hp]; omega
  · rw [hp]
  · rw [hp, hlen]
  · unfold parse_line_args
    rw [List.length_append, List.length_map, hp, hlen]
    simp
  · unfold parse_line_args
    rw [List.length_append, List.length_map, hp, hlen]
    simp
    omega
  · unfold parse_line_args
    have hidx : (parse_line line).2 = ((parse_line line).1.map some).length := by
      rw [List.length_map, hp, hlen]
    rw [hidx]
    exact List.getElem?_concat_length _ _

/-- Claim C1, counterexample: when `execvp` fails, the exit status of the
failing child is 1 in all three launch paths — never the distinguished
status 127 the specification names. -/
theorem exec_fail_status_not_127_cex :
    exitCodesIn (run_process_child ["nosuchcmd"] true) = [1] ∧
    exitCodesIn (run_pipe_child1 3 4 ["nosuchcmd"] true) = [1] ∧
    exitCodesIn (run_pipe_child2 3 4 ["nosuchcmd"] true) = [1] ∧
    (exitCodesIn (run_process_child ["nosuchcmd"] true)).contains 127 = false ∧
    (exitCodesIn (run_pipe_child1 3 4 ["nosuchcmd"] true)).contains 127 = false ∧
    (exitCodesIn (run_pipe_child2 3 4 ["nosuchcmd"] true)).contains 127 = false := by
  decide

/-- Claim C1 as amended: a child whose image replacement fails terminates
with exit status 1 (not 127) in the single-command path and in both
pipeline stages; a successful replacement exits through the new image
instead, and status 1 is never the shell's own exit code (the shell exits
0 on both of its termination paths). -/
theorem exec_fail_status_one (args left right : List String) (fd0 fd1 : Nat) :
    exitCodesIn (run_process_child args true) = [1] ∧
    exitCodesIn (run_pipe_child1 fd0 fd1 left true) = [1] ∧
    exitCodesIn (run_pipe_child2 fd0 fd1 right true) = [1] ∧
    exitCodesIn (run_process_child args false) = [] ∧
    (∀ t : Termination, shell_exit_code t = 0) := by
  refine ⟨rfl, rfl, rfl, rfl, ?_⟩
  intro t
  cases t <;> rfl

/-- Claim C2, counterexample: neither pipeline child performs any
`setpgid` — the first child does not create a process group of its own
pid and the second does not join one. -/
theorem pipe_children_no_setpgid_cex :
    (run_pipe_child1 3 4 ["yes"] false).any isSetpgid = false ∧
    (run_pipe_child2 3 4 ["head", "-n", "1"] false).any isSetpgid = false ∧
    (run_pipe_parent 3 4 101 102).any isSetpgid = false := by decide

/-- Claim C2 as amended: the two pipeline stages do end up in one process
group, but only because both inherit the shell's own group across `fork`;
no `setpgid` occurs anywhere in `run_pipe`, so there is no group creation
by the first child and no explicit join by the second. -/
theorem pipe_children_inherit_group (fd0 fd1 : Nat) (left right : List String)
    (e1 e2 : Bool) (shellPgid : Nat) :
    pgidAfter shellPgid (run_pipe_child1 fd0 fd1 left e1) = shellPgid ∧
    pgidAfter shellPgid (run_pipe_child2 fd0 fd1 right e2) = shellPgid ∧
    (run_pipe_child1 fd0 fd1 left e1).any isSetpgid = false ∧
    (run_pipe_child2 fd0 fd1 right e2).any isSetpgid = false := by
  cases e1 <;> cases e2 <;> exact ⟨rfl, rfl, rfl, rfl⟩

/-- Claim C3, counterexample: a line ending in a trailing `&` that
contains a pipe is dispatched to `run_pipe` — the `&` is not recognized
as a background marker (it is passed as an argument of the right command)
and the parent waits for both children. -/
theorem trailing_amp_pipeline_cex :
    dispatch_line "yes | head -n 1 &" = Dispatch.pipe ["yes"] ["head", "-n", "1", "&"] ∧
    (run_pipe_parent 3 4 101 102).contains (Action.waitpidFor 101) = true ∧
    (run_pipe_parent 3 4 101 102).contains (Action.waitpidFor 102) = true := by decide

/-- Claim C3 as amended: a trailing `&` token backgrounds only a plain
single command: on a line with no `'|'` whose first token is not a
built-in name and whose last token is `"&"`, the dispatch is an external
launch with the `&` stripped and background set, and the backgrounded
parent performs no wait; a pipeline's parent waits unconditionally. -/
theorem trailing_amp_backgrounds_single (line : String)
    (hnp : splitAtPipe line.toList = none)
    (a0 : String) (rest : List String)
    (hargs : (parse_line line).1 = a0 :: rest)
    (hpwd : a0 ≠ "pwd") (hcd : a0 ≠ "cd") (hexit : a0 ≠ "exit")
    (hamp : (a0 :: rest).getLast? = some "&") :
    dispatch_line line = Dispatch.external ((a0 :: rest).dropLast) true ∧
    (∀ pid : Nat, (run_process_parent pid true).any isWait = false) ∧
    (∀ fd0 fd1 p1 p2 : Nat, (run_pipe_parent fd0 fd1 p1 p2).any isWait = true) := by
  refine ⟨?_, fun pid => rfl, fun fd0 fd1 p1 p2 => rfl⟩
  have hne : line.toList ≠ [] := by
    intro h0
    have h0' : line.data = [] := h0
    have hnil : (parse_line line).1 = [] := by
      simp [parse_line, tokenize, String.toList, h0', tokenizeAux, parse_line_go]
    rw [hargs] at hnil
    exact List.cons_ne_nil a0 rest hnil
  unfold dispatch_line
  rw [if_neg hne, hnp]
  show dispatch_nonpipe (parse_line line).1 = _
  rw [hargs]
  show (if a0 = "pwd" then Dispatch.builtinPwd
      else if a0 = "cd" then Dispatch.builtinCd
      else if a0 = "exit" then Dispatch.builtinExitPrompt
      else Dispatch.external (is_background (a0 :: rest)).2 (is_background (a0 :: rest)).1) =
    Dispatch.external ((a0 :: rest).dropLast) true
  rw [if_neg hpwd, if_neg hcd, if_neg hexit]
  unfold is_background
  rw [if_pos hamp]

/-- Concrete instance of `trailing_amp_backgrounds_single` at the input
line "sleep 5 &", with every hypothesis checked by evaluation. -/
theorem trailing_amp_backgrounds_single_witness :
    (parse_line "sleep 5 &").1 = "sleep" :: ["5", "&"] ∧
    dispatch_line "sleep 5 &" = Dispatch.external ["sleep", "5"] true :=
  ⟨by decide,
    (trailing_amp_backgrounds_single "sleep 5 &" (by decide) "sleep" ["5", "&"]
      (by decide) (by decide) (by decide) (by decide) (by decide)).1⟩

/-- Claim C4: after both forks the `run_pipe` parent has closed both pipe
descriptors before its first wait — at the moment the foreground wait
begins it holds neither the read end nor the write end — and it does then
wait. -/
theorem pipe_parent_closes_before_wait (fd0 fd1 pid1 pid2 : Nat) :
    openFdsAfter [fd0, fd1]
        ((run_pipe_parent fd0 fd1 pid1 pid2).takeWhile fun a => !(isWait a)) = [] ∧
    (run_pipe_parent fd0 fd1 pid1 pid2).any isWait = true := by
  constructor
  · show (([fd0, fd1].erase fd0).erase fd1) = []
    rw [List.erase_cons_head, List.erase_cons_head]
  · rfl

/-- Claim C5, counterexample: end-of-input terminates the shell at once —
no confirmation question is asked and no affirmative answer is read,
unlike the `exit` built-in, which asks and keeps running on "n". -/
theorem eof_no_confirmation_cex :
    shell_run LoopMode.reading [] = ([], Termination.eofBreak) ∧
    (shell_run LoopMode.reading ["pwd"]).2 = Termination.eofBreak ∧
    (shell_run LoopMode.reading ["pwd"]).1.contains Event.confirmPrompt = false ∧
    shell_run LoopMode.reading ["exit", "n"] =
      ([Event.confirmPrompt], Termination.eofBreak) := by decide

/-- Claim C5 as amended: end-of-input makes the loop break immediately and
the shell exit with status 0, with no confirmation requested; the y/n
confirmation guards only the explicit `exit` built-in, which terminates on
a leading 'y' and continues the loop otherwise. -/
theorem eof_breaks_immediately (mode : LoopMode) (rest : List String) :
    shell_run mode [] = ([], Termination.eofBreak) ∧
    shell_exit_code Termination.eofBreak = 0 ∧
    shell_run LoopMode.reading ("exit" :: "y" :: rest) =
      ([Event.confirmPrompt], Termination.confirmedExit) ∧
    (shell_run LoopMode.reading ("exit" :: "n" :: rest)).1 =
      Event.confirmPrompt :: (shell_run LoopMode.reading rest).1 ∧
    (shell_run LoopMode.reading ("exit" :: "n" :: rest)).2 =
      (shell_run LoopMode.reading rest).2 := by
  cases mode <;> exact ⟨rfl, rfl, rfl, rfl, rfl⟩

end MiniShell
